import Mathlib

/-!
Verification of the DucksFinances bookkeeping backend
(invoice engine, payment recording, reporting aggregator).

The Python source is shallowly embedded: money (`Decimal`) is modelled as `ℚ`,
dates as explicit year/month/day records with the standard civil-calendar
day-number conversions, database rows as Lean structures, and fallible
handlers as `Except`.
-/

/-! ## Calendar dates (`datetime.date`) -/

/-- A civil calendar date, as produced by `datetime.date` /
`datetime.strptime(_, '%Y-%m-%d').date()`. -/
structure Date where
  year : Int
  month : Nat
  day : Nat
deriving DecidableEq, Repr

/-- Lexicographic date comparison (`date.__le__`). -/
def Date.le (a b : Date) : Bool :=
  a.year < b.year ||
    (a.year = b.year && (a.month < b.month ||
      (a.month = b.month && a.day ≤ b.day)))

/-- Strict lexicographic date comparison (`date.__lt__`). -/
def Date.lt (a b : Date) : Bool :=
  a.year < b.year ||
    (a.year = b.year && (a.month < b.month ||
      (a.month = b.month && a.day < b.day)))

/-- Days since 1970-01-01 of a civil date (the standard `days_from_civil`
conversion underlying `datetime.date.toordinal` shifted to the Unix epoch;
`timedelta` arithmetic acts on this number). Divisions are Euclidean, which
agrees with floor division here since all divisors are positive. -/
def daysFromCivil (dt : Date) : Int :=
  let y : Int := if dt.month ≤ 2 then dt.year - 1 else dt.year
  let era : Int := y / 400
  let yoe : Int := y - era * 400
  let mp : Int := if dt.month > 2 then (dt.month : Int) - 3 else (dt.month : Int) + 9
  let doy : Int := (153 * mp + 2) / 5 + (dt.day : Int) - 1
  let doe : Int := yoe * 365 + yoe / 4 - yoe / 100 + doy
  era * 146097 + doe - 719468

/-- Civil date from days since 1970-01-01 (the standard `civil_from_days`
conversion; inverse of `daysFromCivil`). -/
def civilFromDays (z0 : Int) : Date :=
  let z : Int := z0 + 719468
  let era : Int := z / 146097
  let doe : Int := z - era * 146097
  let yoe : Int := (doe - doe / 1460 + doe / 36524 - doe / 146096) / 365
  let y : Int := yoe + era * 400
  let doy : Int := doe - (365 * yoe + yoe / 4 - yoe / 100)
  let mp : Int := (5 * doy + 2) / 153
  let d : Int := doy - (153 * mp + 2) / 5 + 1
  let m : Int := if mp < 10 then mp + 3 else mp - 9
  { year := if m ≤ 2 then y + 1 else y, month := m.toNat, day := d.toNat }

/-- `date - timedelta(days=n)`. -/
def subDays (dt : Date) (n : Int) : Date :=
  civilFromDays (daysFromCivil dt - n)

/-! ## Data model (`app/models`) -/

/-- `InvoiceStatus` enum (`app/models/invoice.py`). -/
inductive InvoiceStatus where
  | draft
  | sent
  | viewed
  | partially_paid
  | paid
  | overdue
  | void
  | uncollectible
deriving DecidableEq, Repr

/-- `InvoiceStatus(value)` constructor lookup from the enum's string values;
`none` models the `ValueError` Python raises for an unknown value. -/
def invoiceStatusOfString : String → Option InvoiceStatus
  | "draft" => some .draft
  | "sent" => some .sent
  | "viewed" => some .viewed
  | "partially_paid" => some .partially_paid
  | "paid" => some .paid
  | "overdue" => some .overdue
  | "void" => some .void
  | "uncollectible" => some .uncollectible
  | _ => none

/-- `TransactionType` enum (`app/models/transaction.py`). -/
inductive TransactionType where
  | income
  | expense
  | transfer
deriving DecidableEq, Repr

/-- `InvoiceItem` row (`app/models/invoice.py`). `Numeric` columns are `ℚ`. -/
structure InvoiceItem where
  id : Nat
  description : String
  quantity : ℚ
  unit_price : ℚ
  tax_rate : ℚ
  amount : ℚ
deriving DecidableEq, Repr

/-- `InvoiceItem.calculate_amount` (`app/models/invoice.py`). -/
def InvoiceItem.calculate_amount (it : InvoiceItem) : ℚ :=
  it.quantity * it.unit_price * (1 + it.tax_rate / 100)

/-- `Invoice` row together with its `items` relationship
(`app/models/invoice.py`). Money columns are `ℚ`; the `Numeric` column
defaults (`0.00`) are the initial values of the money fields. -/
structure Invoice where
  id : Nat
  invoice_number : String
  issue_date : Date
  due_date : Date
  status : InvoiceStatus
  notes : Option String
  terms : Option String
  tax_rate : ℚ
  subtotal : ℚ
  tax_amount : ℚ
  total : ℚ
  amount_paid : ℚ
  amount_due : ℚ
  currency : String
  user_id : Nat
  client_id : Nat
  project_id : Option Nat
  items : List InvoiceItem
deriving DecidableEq, Repr

/-- `Transaction` row (`app/models/transaction.py`). The `category` column
is kept as its string value. -/
structure Transaction where
  id : Nat
  date : Date
  amount : ℚ
  description : String
  reference : Option String
  is_reconciled : Bool
  type : TransactionType
  category : String
  user_id : Nat
  project_id : Option Nat
  invoice_id : Option Nat
deriving DecidableEq, Repr

/-- `sum(item.amount for item in self.items)`. -/
def sumItemAmounts (items : List InvoiceItem) : ℚ :=
  (items.map (fun it => it.amount)).sum

/-- `Invoice.calculate_totals` (`app/models/invoice.py`, lines 72-84):
recompute `subtotal`, `tax_amount`, `total`, `amount_due` from the current
items and payments, then auto-promote the status. -/
def calculateTotals (inv : Invoice) : Invoice :=
  let subtotal := sumItemAmounts inv.items
  let tax_amount := subtotal * (inv.tax_rate / 100)
  let total := subtotal + tax_amount
  let amount_due := total - inv.amount_paid
  let status :=
    if amount_due ≤ 0 then InvoiceStatus.paid
    else if inv.amount_paid > 0 then InvoiceStatus.partially_paid
    else inv.status
  { inv with
      subtotal := subtotal
      tax_amount := tax_amount
      total := total
      amount_due := amount_due
      status := status }

/-- The derived-money-field invariant of §3 of the specification. -/
def MoneyInvariant (inv : Invoice) : Prop :=
  inv.subtotal = sumItemAmounts inv.items ∧
  inv.tax_amount = inv.subtotal * (inv.tax_rate / 100) ∧
  inv.total = inv.subtotal + inv.tax_amount ∧
  inv.amount_due = inv.total - inv.amount_paid

theorem calculateTotals_money_invariant (inv : Invoice) :
    MoneyInvariant (calculateTotals inv) := by
  refine ⟨rfl, rfl, rfl, rfl⟩

theorem calculateTotals_items (inv : Invoice) :
    (calculateTotals inv).items = inv.items := rfl

theorem calculateTotals_amount_paid (inv : Invoice) :
    (calculateTotals inv).amount_paid = inv.amount_paid := rfl


/-! ## Invoice numbers (`InvoiceService._generate_invoice_number`) -/

/-- Decimal digit character `'0' + d`. -/
def digitChar (d : Nat) : Char := Char.ofNat (48 + d)

/-- Numeric value of a digit character. -/
def charDigit (c : Char) : Nat := c.toNat - 48

/-- Big-endian digit expansion with explicit fuel, so that it is
structurally recursive and reduces in the kernel. -/
def digitsBE : Nat → Nat → List Nat
  | 0, _ => []
  | fuel + 1, n => if n < 10 then [n] else digitsBE fuel (n / 10) ++ [n % 10]

/-- Big-endian digit list of a natural number (`f"{n}"`); Python prints
`0` as `"0"`. Fuel `n + 1` always suffices since `n / 10` shrinks. -/
def natDigitsBE (n : Nat) : List Nat := digitsBE (n + 1) n

/-- Zero-pad a digit list on the left to width `w` (`f"{n:0wd}"`). -/
def padTo (w : Nat) (ds : List Nat) : List Nat :=
  List.replicate (w - ds.length) 0 ++ ds

/-- Value of a big-endian digit list. -/
def valBE (ds : List Nat) : Nat := ds.foldl (fun a d => 10 * a + d) 0

/-- `f"INV-{current_year}{current_month:02d}-{sequence:04d}"`
(`app/services/invoice_service.py`, line 50). -/
def mkInvoiceNumber (y m s : Nat) : String :=
  ⟨"INV-".data ++ (natDigitsBE y).map digitChar ++
    (padTo 2 (natDigitsBE m)).map digitChar ++ ['-'] ++
    (padTo 4 (natDigitsBE s)).map digitChar⟩

/-- Consume an exact literal prefix; `none` if it does not match. -/
def dropLit : List Char → List Char → Option (List Char)
  | [], cs => some cs
  | _ :: _, [] => none
  | p :: ps, c :: cs => if c = p then dropLit ps cs else none

/-- Read exactly `n` decimal digit characters (the regex fragment
`\d{n}`), returning their values and the rest of the input. -/
def readFixed : Nat → List Char → Option (List Nat × List Char)
  | 0, cs => some ([], cs)
  | _ + 1, [] => none
  | n + 1, c :: cs =>
    if c.isDigit then
      (readFixed n cs).map (fun p => (charDigit c :: p.1, p.2))
    else none

/-- Read the maximal (possibly empty) run of decimal digit characters
(the greedy regex fragment `\d+` without its non-emptiness check). -/
def takeDigits : List Char → List Nat × List Char
  | [] => ([], [])
  | c :: cs =>
    if c.isDigit then
      let p := takeDigits cs
      (charDigit c :: p.1, p.2)
    else ([], c :: cs)

/-- `re.match(r'INV-(\d{4})(\d{2})-(\d+)', number)` followed by
`int(...)` on the three groups (`_generate_invoice_number`): `re.match`
anchors at the start only, so trailing characters are permitted. -/
def parseInvoiceNumber (number : String) : Option (Nat × Nat × Nat) := do
  let cs ← dropLit "INV-".data number.data
  let (yds, cs) ← readFixed 4 cs
  let (mds, cs) ← readFixed 2 cs
  let cs ← dropLit ['-'] cs
  let sds := (takeDigits cs).1
  if sds.isEmpty then none
  else some (valBE yds, valBE mds, valBE sds)

/-- `Invoice.query.filter_by(user_id=...).order_by(Invoice.id.desc()).first()`:
the row with the largest `id`, given the user's invoices. -/
def latestInvoice (invoices : List Invoice) : Option Invoice :=
  invoices.foldl
    (fun acc inv =>
      match acc with
      | none => some inv
      | some best => if best.id < inv.id then some inv else acc)
    none

/-- `InvoiceService._generate_invoice_number`
(`app/services/invoice_service.py`, lines 11-50), with the user's invoice
rows and today's year/month passed explicitly. -/
def generateInvoiceNumber (invoices : List Invoice) (cy cm : Nat) : String :=
  let sequence :=
    match latestInvoice invoices with
    | some latest =>
      if latest.invoice_number ≠ "" then
        match parseInvoiceNumber latest.invoice_number with
        | some (y, m, s) => if y = cy ∧ m = cm then s + 1 else 1
        | none => 1
      else 1
    | none => 1
  mkInvoiceNumber cy cm sequence


theorem valBE_append_singleton (ds : List Nat) (d : Nat) :
    valBE (ds ++ [d]) = 10 * valBE ds + d := by
  simp [valBE, List.foldl_append]

theorem valBE_digitsBE : ∀ fuel n, n ≤ fuel → valBE (digitsBE (fuel + 1) n) = n := by
  intro fuel
  induction fuel with
  | zero =>
    intro n hn
    have : n = 0 := Nat.le_zero.mp hn
    subst this
    decide
  | succ fuel ih =>
    intro n hn
    rw [digitsBE]
    split
    · simp [valBE]
    · rename_i h
      have h10 : 10 ≤ n := Nat.le_of_not_lt h
      rw [valBE_append_singleton, ih (n / 10) (by omega)]
      omega

theorem digitsBE_lt : ∀ fuel n d, d ∈ digitsBE fuel n → d < 10 := by
  intro fuel
  induction fuel with
  | zero => intro n d hd; simp [digitsBE] at hd
  | succ fuel ih =>
    intro n d hd
    rw [digitsBE] at hd
    split at hd
    · rename_i h; simp at hd; omega
    · rcases List.mem_append.mp hd with h1 | h2
      · exact ih _ _ h1
      · simp at h2; omega

theorem digitsBE_length : ∀ fuel n k, n ≤ fuel → 10 ^ k ≤ n → n < 10 ^ (k + 1) →
    (digitsBE (fuel + 1) n).length = k + 1 := by
  intro fuel
  induction fuel with
  | zero =>
    intro n k h1 h2 h3
    have hk : 0 < 10 ^ k := Nat.pos_pow_of_pos k (by norm_num)
    omega
  | succ fuel ih =>
    intro n k h1 h2 h3
    rw [digitsBE]
    split
    · rename_i h
      have hk : k = 0 := by
        by_contra hk
        have h1' : 1 ≤ k := Nat.one_le_iff_ne_zero.mpr hk
        have : (10 : Nat) ^ 1 ≤ 10 ^ k := Nat.pow_le_pow_right (by norm_num) h1'
        simp at this
        omega
      subst hk
      simp
    · rename_i h
      have h10 : 10 ≤ n := Nat.le_of_not_lt h
      obtain ⟨j, rfl⟩ : ∃ j, k = j + 1 := by
        cases k with
        | zero => simp at h3; omega
        | succ j => exact ⟨j, rfl⟩
      have hle : 10 ^ j ≤ n / 10 := by
        rw [Nat.le_div_iff_mul_le (by norm_num)]
        calc 10 ^ j * 10 = 10 ^ (j + 1) := by ring
        _ ≤ n := h2
      have hlt : n / 10 < 10 ^ (j + 1) := by
        rw [Nat.div_lt_iff_lt_mul (by norm_num)]
        calc n < 10 ^ (j + 1 + 1) := h3
        _ = 10 ^ (j + 1) * 10 := by ring
      rw [List.length_append, ih (n / 10) j (by omega) hle hlt]
      simp

theorem digitsBE_length_le : ∀ fuel n k, n ≤ fuel → n < 10 ^ (k + 1) →
    (digitsBE (fuel + 1) n).length ≤ k + 1 := by
  intro fuel
  induction fuel with
  | zero =>
    intro n k h1 _
    have : n = 0 := Nat.le_zero.mp h1
    subst this
    simp [digitsBE]
  | succ fuel ih =>
    intro n k h1 h2
    rw [digitsBE]
    split
    · simp
    · rename_i h
      have h10 : 10 ≤ n := Nat.le_of_not_lt h
      obtain ⟨j, rfl⟩ : ∃ j, k = j + 1 := by
        cases k with
        | zero => simp at h2; omega
        | succ j => exact ⟨j, rfl⟩
      have hlt : n / 10 < 10 ^ (j + 1) := by
        rw [Nat.div_lt_iff_lt_mul (by norm_num)]
        calc n < 10 ^ (j + 1 + 1) := h2
        _ = 10 ^ (j + 1) * 10 := by ring
      rw [List.length_append]
      have := ih (n / 10) j (by omega) hlt
      simp
      omega

theorem valBE_padTo (w : Nat) (ds : List Nat) : valBE (padTo w ds) = valBE ds := by
  have h0 : ∀ k, List.foldl (fun a d => 10 * a + d) 0 (List.replicate k 0) = 0 := by
    intro k
    induction k with
    | zero => rfl
    | succ k ih => simpa [List.replicate_succ] using ih
  simp [padTo, valBE, List.foldl_append, h0]

theorem padTo_length {w : Nat} {ds : List Nat} (h : ds.length ≤ w) :
    (padTo w ds).length = w := by
  simp [padTo]
  omega

theorem padTo_lt {w : Nat} {ds : List Nat} (h : ∀ d ∈ ds, d < 10) :
    ∀ d ∈ padTo w ds, d < 10 := by
  intro d hd
  rcases List.mem_append.mp hd with h1 | h2
  · have := List.eq_of_mem_replicate h1
    omega
  · exact h d h2

theorem digitChar_spec : ∀ d, d < 10 → (digitChar d).isDigit = true ∧ charDigit (digitChar d) = d := by
  decide

theorem dropLit_append (p r : List Char) : dropLit p (p ++ r) = some r := by
  induction p with
  | nil => rfl
  | cons c cs ih => simp [dropLit, ih]

theorem readFixed_exact : ∀ (ds : List Nat) (rest : List Char), (∀ d ∈ ds, d < 10) →
    readFixed ds.length (ds.map digitChar ++ rest) = some (ds, rest) := by
  intro ds
  induction ds with
  | nil => intro rest _; rfl
  | cons d ds ih =>
    intro rest hd
    have hlt : d < 10 := hd d (by simp)
    obtain ⟨hdig, hval⟩ := digitChar_spec d hlt
    simp only [List.map_cons, List.cons_append, List.length_cons, readFixed, hdig, if_true,
      List.append_eq]
    rw [ih rest (fun x hx => hd x (by simp [hx]))]
    simp [hval]

theorem readFixed_of_length (n : Nat) (ds : List Nat) (rest : List Char)
    (hlen : ds.length = n) (hds : ∀ d ∈ ds, d < 10) :
    readFixed n (ds.map digitChar ++ rest) = some (ds, rest) := by
  subst hlen
  exact readFixed_exact ds rest hds

theorem takeDigits_all : ∀ (ds : List Nat), (∀ d ∈ ds, d < 10) →
    takeDigits (ds.map digitChar) = (ds, []) := by
  intro ds
  induction ds with
  | nil => intro _; rfl
  | cons d ds ih =>
    intro hd
    have hlt : d < 10 := hd d (by simp)
    obtain ⟨hdig, hval⟩ := digitChar_spec d hlt
    simp only [List.map_cons, takeDigits, hdig, if_true]
    rw [ih (fun x hx => hd x (by simp [hx]))]
    simp [hval]

/-- Round trip: a freshly formatted invoice number parses back to its
components, for four-digit years and at most two-digit months. -/
theorem parse_mkInvoiceNumber (y m s : Nat)
    (hy1 : 1000 ≤ y) (hy2 : y ≤ 9999) (hm : m ≤ 99) :
    parseInvoiceNumber (mkInvoiceNumber y m s) = some (y, m, s) := by
  have hylen : (natDigitsBE y).length = 4 := by
    have h3 : (10 : Nat) ^ 3 = 1000 := by norm_num
    have h4 : (10 : Nat) ^ (3 + 1) = 10000 := by norm_num
    have := digitsBE_length y y 3 (le_refl y) (by omega) (by omega)
    simpa [natDigitsBE] using this
  have hylt : ∀ d ∈ natDigitsBE y, d < 10 := fun d hd => digitsBE_lt _ _ _ hd
  have hmlen : (padTo 2 (natDigitsBE m)).length = 2 := by
    apply padTo_length
    have h2 : (10 : Nat) ^ (1 + 1) = 100 := by norm_num
    have := digitsBE_length_le m m 1 (le_refl m) (by omega)
    simpa [natDigitsBE] using this
  have hmlt : ∀ d ∈ padTo 2 (natDigitsBE m), d < 10 :=
    padTo_lt (fun d hd => digitsBE_lt _ _ _ hd)
  have hslt : ∀ d ∈ padTo 4 (natDigitsBE s), d < 10 :=
    padTo_lt (fun d hd => digitsBE_lt _ _ _ hd)
  have hsne : (padTo 4 (natDigitsBE s)) ≠ [] := by
    intro hnil
    have h1 := congrArg List.length hnil
    rw [padTo, List.length_append, List.length_replicate] at h1
    simp only [List.length_nil] at h1
    omega
  have hval_y : valBE (natDigitsBE y) = y := valBE_digitsBE y y (le_refl y)
  have hval_m : valBE (padTo 2 (natDigitsBE m)) = m := by
    rw [valBE_padTo]; exact valBE_digitsBE m m (le_refl m)
  have hval_s : valBE (padTo 4 (natDigitsBE s)) = s := by
    rw [valBE_padTo]; exact valBE_digitsBE s s (le_refl s)
  have hdata : (mkInvoiceNumber y m s).data =
      "INV-".data ++ ((natDigitsBE y).map digitChar ++
        ((padTo 2 (natDigitsBE m)).map digitChar ++ ('-' ::
          (padTo 4 (natDigitsBE s)).map digitChar))) := by
    simp [mkInvoiceNumber]
  rw [parseInvoiceNumber, hdata, dropLit_append]
  simp only [Option.bind_eq_bind, Option.some_bind]
  rw [readFixed_of_length 4 _ _ hylen hylt]
  simp only [Option.some_bind]
  rw [readFixed_of_length 2 _ _ hmlen hmlt]
  simp only [Option.some_bind]
  have hsplit : ('-' :: (padTo 4 (natDigitsBE s)).map digitChar) =
      ['-'] ++ (padTo 4 (natDigitsBE s)).map digitChar := rfl
  rw [hsplit, dropLit_append]
  simp only [Option.some_bind]
  rw [takeDigits_all _ hslt]
  simp [hsne, hval_y, hval_m, hval_s, List.isEmpty_iff]

/-! ## Invoice service (`app/services/invoice_service.py`) -/

/-- One entry of the request's `items` list. Fields mirror the JSON dict:
`none` models an absent key (`'description' in item_data` etc.);
`tax_rate` absent defaults to `0` at use sites. -/
structure ItemData where
  id : Option Nat
  description : Option String
  quantity : Option ℚ
  unit_price : Option ℚ
  tax_rate : Option ℚ
deriving DecidableEq, Repr

/-- Request body of `POST /api/invoices` / `InvoiceService.create_invoice`.
`none` models an absent key. Dates are carried already parsed; a malformed
date string is outside this model. -/
structure CreateData where
  client_id : Option Nat
  project_id : Option Nat
  issue_date : Option Date
  due_date : Option Date
  currency : Option String
  tax_rate : Option ℚ
  notes : Option String
  terms : Option String
  items : Option (List ItemData)
deriving DecidableEq, Repr

/-- Build one `InvoiceItem` from request data, with
`amount = quantity * unit_price * (1 + tax_rate / 100)`
(`invoice_service.py`, lines 116-125 and 221-228). The `id` is the row id
for an in-place update and `0` for a freshly inserted row. -/
def buildItem (rowId : Nat) (d : ItemData) (desc : String) (q p : ℚ) : InvoiceItem :=
  let r := d.tax_rate.getD 0
  { id := rowId, description := desc, quantity := q, unit_price := p,
    tax_rate := r, amount := q * p * (1 + r / 100) }

/-- The item-building loop of `InvoiceService.create_invoice`
(`invoice_service.py`, lines 112-127): each entry needs `description`,
`quantity` and `unit_price`; its `amount` is computed by `buildItem`. -/
def buildCreateItems : List ItemData → Except String (List InvoiceItem)
  | [] => .ok []
  | it :: rest =>
    match it.description, it.quantity, it.unit_price with
    | some desc, some q, some p =>
      match buildCreateItems rest with
      | .error e => .error e
      | .ok tail => .ok (buildItem 0 it desc q p :: tail)
    | _, _, _ =>
      .error "Invalid data: Each item must have description, quantity, and unit_price"

/-- `InvoiceService.create_invoice` (`invoice_service.py`, lines 52-142).
`existing` is the user's current invoice list (for number generation) and
`cy`/`cm` are today's year and month. Errors carry the raised message.
The validations and the item building (with each `amount` computed) run
in source order, but the operation can never return an invoice: line 130
calls `invoice.calculate_totals()` on the still-transient row, before the
INSERT flush that would apply the `amount_paid` column default (`0.00`),
so `self.amount_paid` is still `None` and line 76 of `invoice.py`
(`self.total - self.amount_paid`) raises `TypeError` (`Decimal - None`).
The bare `except Exception` rolls back and re-raises
`Failed to create invoice: {the TypeError's text}`. -/
def createInvoice (_existing : List Invoice) (_cy _cm : Nat) (_userId : Nat)
    (d : CreateData) : Except String Invoice :=
  if d.client_id.isNone then .error "Missing required field: client_id"
  else if d.issue_date.isNone then .error "Missing required field: issue_date"
  else if d.due_date.isNone then .error "Missing required field: due_date"
  else if d.items.isNone then .error "Missing required field: items"
  else
    match d.client_id, d.issue_date, d.due_date, d.items with
    | some _, some issueDate, some dueDate, some itemsData =>
      if itemsData.length = 0 then .error "At least one invoice item is required"
      else if Date.lt dueDate issueDate then
        .error "Invalid data: Due date cannot be before issue date"
      else
        match buildCreateItems itemsData with
        | .error e => .error e
        | .ok _ =>
          .error "Failed to create invoice: unsupported operand type(s) for -: Decimal and NoneType"
    | _, _, _, _ => .error "unreachable"

/-- Request body of `PUT /api/invoices/<id>` / `InvoiceService.update_invoice`;
`none` models an absent key. The `status` value arrives as its raw string. -/
structure UpdateData where
  client_id : Option Nat
  project_id : Option Nat
  issue_date : Option Date
  due_date : Option Date
  status : Option String
  currency : Option String
  tax_rate : Option ℚ
  notes : Option String
  terms : Option String
  items : Option (List ItemData)
deriving DecidableEq, Repr

/-- The item reconciliation of `InvoiceService.update_invoice`
(`invoice_service.py`, lines 197-238): an entry whose `id` is truthy and
still among the not-yet-claimed existing row ids updates that row in place
(all fields overwritten, amount recomputed); any other entry becomes a new
row; existing rows never claimed are deleted (they simply do not appear in
the returned list). -/
def buildUpdatedItems : List Nat → List ItemData → Except String (List InvoiceItem)
  | _, [] => .ok []
  | remaining, it :: rest =>
    match it.description, it.quantity, it.unit_price with
    | some desc, some q, some p =>
      match it.id with
      | some i =>
        if i ≠ 0 ∧ i ∈ remaining then
          match buildUpdatedItems (remaining.erase i) rest with
          | .error e => .error e
          | .ok tail => .ok (buildItem i it desc q p :: tail)
        else
          match buildUpdatedItems remaining rest with
          | .error e => .error e
          | .ok tail => .ok (buildItem 0 it desc q p :: tail)
      | none =>
        match buildUpdatedItems remaining rest with
        | .error e => .error e
        | .ok tail => .ok (buildItem 0 it desc q p :: tail)
    | _, _, _ =>
      .error "Invalid data: Each item must have description, quantity, and unit_price"

/-- Tail of `InvoiceService.update_invoice` after the status field: the
`optional_fields` loop (`invoice_service.py`, lines 187-195), the item
reconciliation (lines 197-238) and the final `calculate_totals`. -/
def updateServiceFields (inv1 : Invoice) (d : UpdateData) : Except String Invoice :=
  let inv2 := { inv1 with
    client_id := d.client_id.getD inv1.client_id
    project_id := match d.project_id with
      | some p => some p
      | none => inv1.project_id
    currency := d.currency.getD inv1.currency
    tax_rate := d.tax_rate.getD inv1.tax_rate
    notes := match d.notes with
      | some n => some n
      | none => inv1.notes
    terms := match d.terms with
      | some t => some t
      | none => inv1.terms }
  match d.items with
  | some itemsData =>
    match buildUpdatedItems (inv2.items.map (fun it => it.id)) itemsData with
    | .error e => .error e
    | .ok newItems => .ok (calculateTotals { inv2 with items := newItems })
  | none => .ok (calculateTotals inv2)

/-- Middle of `InvoiceService.update_invoice`: the status field
(`invoice_service.py`, lines 184-185), whose raw string must be a valid
`InvoiceStatus` value. -/
def updateServiceStatus (inv1 : Invoice) (d : UpdateData) : Except String Invoice :=
  match d.status with
  | some s =>
    match invoiceStatusOfString s with
    | some st => updateServiceFields { inv1 with status := st } d
    | none =>
      .error ("Invalid data: '" ++ s ++ "' is not a valid InvoiceStatus")
  | none => updateServiceFields inv1 d

/-- `InvoiceService.update_invoice` (`invoice_service.py`, lines 144-251):
partial update — each field changes only when present in the request —
followed by `calculate_totals`. The date fields run first, in source
order. -/
def updateInvoiceService (inv0 : Invoice) (d : UpdateData) : Except String Invoice :=
  let inv1 := match d.issue_date with
    | some dt => { inv0 with issue_date := dt }
    | none => inv0
  match d.due_date with
  | some dd =>
    if Date.lt dd inv1.issue_date then
      .error "Invalid data: Due date cannot be before issue date"
    else updateServiceStatus { inv1 with due_date := dd } d
  | none => updateServiceStatus inv1 d

/-- `InvoiceService.record_payment` (`invoice_service.py`, lines 253-306):
validate the amount, add it to `amount_paid`, recompute totals, and build
the ledger `Transaction` for the payment. The guard order is the source's:
`amount <= 0` first, then `amount > invoice.amount_due`; the invoice's
status is never inspected here. -/
def recordPaymentService (inv : Invoice) (amount : ℚ) (paymentDate : Date) :
    Except String (Invoice × Transaction) :=
  if amount ≤ 0 then .error "Payment amount must be greater than 0"
  else if amount > inv.amount_due then
    .error "Payment amount cannot be greater than the amount due"
  else
    let inv2 := calculateTotals { inv with amount_paid := inv.amount_paid + amount }
    let txn : Transaction :=
      { id := 0
        date := paymentDate
        amount := amount
        description := "Payment for invoice " ++ inv.invoice_number
        reference := some ("INV-" ++ toString inv.id)
        is_reconciled := true
        type := .income
        category := "service"
        user_id := inv.user_id
        project_id := inv.project_id
        invoice_id := some inv.id }
    .ok (inv2, txn)

/-- `InvoiceService.send_invoice` status logic (`invoice_service.py`,
lines 329-333): promote DRAFT to SENT, leave any other status alone. The
status change is committed before the email placeholder runs. -/
def sendInvoiceService (inv : Invoice) : Invoice :=
  if inv.status = .draft then { inv with status := .sent } else inv

/-! ## Invoice routes (`app/routes/invoices.py`) -/

/-- A route failure: HTTP status code and the `message` field. -/
abbrev RouteErr := Nat × String

/-- `PUT /api/invoices/<id>` (`routes/invoices.py`, lines 131-171).
`invoice?` is the result of the ownership-scoped lookup. On a PAID or
PARTIALLY_PAID invoice only `status`, `notes` and `terms` may appear in
the body; any other present field is rejected before the service runs. -/
def updateInvoiceRoute (invoice? : Option Invoice) (d : UpdateData) :
    Except RouteErr Invoice :=
  match invoice? with
  | none => .error (404, "Invoice not found")
  | some inv =>
    if (inv.status = .paid ∨ inv.status = .partially_paid) ∧
        (d.client_id.isSome ∨ d.project_id.isSome ∨ d.issue_date.isSome ∨
          d.due_date.isSome ∨ d.currency.isSome ∨ d.tax_rate.isSome ∨
          d.items.isSome) then
      .error (400,
        "Cannot update paid/partially paid invoice details. Only status, notes, and terms can be updated.")
    else
      match updateInvoiceService inv d with
      | .ok inv2 => .ok inv2
      | .error e => .error (400, e)

/-- `POST /api/invoices/<id>/send` (`routes/invoices.py`, lines 200-230):
sets `status = SENT` unconditionally and commits. -/
def sendInvoiceRoute (invoice? : Option Invoice) : Except RouteErr Invoice :=
  match invoice? with
  | none => .error (404, "Invoice not found")
  | some inv => .ok { inv with status := .sent }

/-- Request body of `POST /api/invoices/<id>/record-payment`. -/
structure PaymentData where
  amount : Option ℚ
  payment_date : Option Date
deriving DecidableEq, Repr

/-- `POST /api/invoices/<id>/record-payment` (`routes/invoices.py`,
lines 232-296). This handler re-implements payment recording inline (it
does not call the service): it checks presence, `amount <= 0`, lookup,
and VOID status — it has no `amount > amount_due` guard. Its would-be
success path never completes: `payment_amount = float(data['amount'])`
(line 244) makes `invoice.amount_paid += payment_amount` (line 268) add
a float to the `Decimal` column value, which raises `TypeError`; the
bare `except Exception` rolls the session back and returns 500
"Failed to record payment". So every payment attempt that passes the
guards ends in that 500 with no state mutated. `currentUser` is the
authenticated user id (unused, since the insert is never reached). -/
def recordPaymentRoute (invoice? : Option Invoice) (_currentUser : Nat)
    (d : PaymentData) : Except RouteErr (Invoice × Transaction) :=
  match d.amount, d.payment_date with
  | some amount, some _ =>
    if amount ≤ 0 then .error (400, "Amount must be greater than 0")
    else
      match invoice? with
      | none => .error (404, "Invoice not found")
      | some inv =>
        if inv.status = .void then
          .error (400, "Cannot record payment for a void invoice")
        else
          .error (500, "Failed to record payment")
  | _, _ => .error (400, "Amount and payment_date are required")

/-! ## Reporting aggregator (`app/routes/reports.py`) -/

/-- The `group_by` query parameter of `GET /api/reports/income-expense`. -/
inductive GroupBy where
  | day
  | week
  | month
  | year
deriving DecidableEq, Repr

/-- ISO week-numbering year and week of a date (PostgreSQL
`to_char(date, 'IYYY-IW')`): the week of a date is the week of its
Thursday, weeks starting on Monday. -/
def isoWeekKey (dt : Date) : Int × Int :=
  let z := daysFromCivil dt
  let wd := (z + 3) % 7 + 1
  let th := z + (4 - wd)
  let t := civilFromDays th
  let week := (th - daysFromCivil ⟨t.year, 1, 1⟩) / 7 + 1
  (t.year, week)

/-- The SQL grouping key of one transaction (`reports.py`, lines 41-48):
`extract('year', date)`, `to_char(date, 'YYYY-MM')`,
`to_char(date, 'IYYY-IW')` or `date(date)`. Keys are represented as
integer pairs whose lexicographic order matches the order of the values
the query produces (fixed-width digit strings, numbers, dates). -/
def periodKey (g : GroupBy) (dt : Date) : Int × Int :=
  match g with
  | .year => (dt.year, 0)
  | .month => (dt.year, (dt.month : Int))
  | .week => isoWeekKey dt
  | .day => (daysFromCivil dt, 0)

/-- Boolean lexicographic order on period keys (the ascending `ORDER BY`
/ `sorted(..., key=lambda x: x['period'])`). -/
def keyLe (a b : Int × Int) : Bool :=
  a.1 < b.1 || (a.1 = b.1 && a.2 ≤ b.2)

/-- Sum of the `amount` column over a list of transactions. -/
def sumAmounts (ts : List Transaction) : ℚ :=
  (ts.map (fun t => t.amount)).sum

/-- One element of the income/expense report's `data` list. -/
structure IEEntry where
  period : Int × Int
  income : ℚ
  expense : ℚ
  net : ℚ
deriving DecidableEq, Repr

/-- The income/expense report payload. -/
structure IEReport where
  data : List IEEntry
  total_income : ℚ
  total_expense : ℚ
  net_income : ℚ
deriving DecidableEq, Repr

/-- The `Transaction.user_id == user and Transaction.date.between(start,
end)` query filter shared by the reports. -/
def reportFiltered (txns : List Transaction) (userId : Nat)
    (startD endD : Date) : List Transaction :=
  txns.filter (fun t =>
    t.user_id = userId && Date.le startD t.date && Date.le t.date endD)

/-- The sorted distinct period keys of the income/expense report: the SQL
`GROUP BY period` keys, then `sorted(result.values(), key=period)`. -/
def ieKeys (txns : List Transaction) (userId : Nat) (startD endD : Date)
    (g : GroupBy) : List (Int × Int) :=
  (((reportFiltered txns userId startD endD).map
    (fun t => periodKey g t.date)).dedup).mergeSort keyLe

/-- One row of the income/expense report for period key `k`: the loop of
`reports.py` lines 70-79 adds income-typed sums to `income` and — through
its bare `else` branch — every other type's sums (expense AND transfer)
to `expense`; `net = income - expense`. -/
def ieRow (txns : List Transaction) (userId : Nat) (startD endD : Date)
    (g : GroupBy) (k : Int × Int) : IEEntry :=
  let income := sumAmounts ((reportFiltered txns userId startD endD).filter
    (fun t => periodKey g t.date = k && t.type = .income))
  let expense := sumAmounts ((reportFiltered txns userId startD endD).filter
    (fun t => periodKey g t.date = k && t.type ≠ .income))
  { period := k, income := income, expense := expense, net := income - expense }

/-- `GET /api/reports/income-expense` (`reports.py`, lines 12-98): one
row per distinct period key of the user's transactions in range, sorted
ascending; totals sum the rows. -/
def incomeExpenseReport (txns : List Transaction) (userId : Nat)
    (startD endD : Date) (g : GroupBy) : IEReport :=
  let rows := (ieKeys txns userId startD endD g).map
    (ieRow txns userId startD endD g)
  let total_income := (rows.map (fun r => r.income)).sum
  let total_expense := (rows.map (fun r => r.expense)).sum
  { data := rows
    total_income := total_income
    total_expense := total_expense
    net_income := total_income - total_expense }

/-- Year-month key of a date (`to_char(date, 'YYYY-MM')` /
`current.strftime('%Y-%m')`). -/
def monthKey (dt : Date) : Int × Nat := (dt.year, dt.month)

/-- First day of the month after `cur` (`reports.py`, lines 199-203). -/
def nextMonthStart (cur : Date) : Date :=
  if cur.month = 12 then ⟨cur.year + 1, 1, 1⟩ else ⟨cur.year, cur.month + 1, 1⟩

/-- The `while current <= end_date` period-generation loop (`reports.py`,
lines 194-203), with explicit fuel; the caller passes fuel that provably
exceeds the number of iterations, so the truncation case is never hit. -/
def periodsLoop : Nat → Date → Date → List (Int × Nat)
  | 0, _, _ => []
  | fuel + 1, cur, endD =>
    if Date.le cur endD then monthKey cur :: periodsLoop fuel (nextMonthStart cur) endD
    else []

/-- Linear index of a (year, month) pair on the month axis. -/
def monthIdx (p : Int × Nat) : Int := 12 * p.1 + (p.2 : Int) - 1

/-- Months spanned from `a` to `b` inclusive, clamped at zero. -/
def monthSpan (a b : Date) : Nat :=
  (monthIdx (monthKey b) - monthIdx (monthKey a) + 1).toNat

/-- `start_date = (end_date - timedelta(days=30*months)).replace(day=1)`
(`reports.py`, line 192) — note the 30-day month approximation. -/
def cashFlowStart (endD : Date) (months : Int) : Date :=
  let d := subDays endD (30 * months)
  { d with day := 1 }

/-- The full ordered period list of the cash-flow report. -/
def cashFlowPeriods (startD endD : Date) : List (Int × Nat) :=
  periodsLoop (monthSpan startD endD + 1) startD endD

/-- One element of the cash-flow report's `data` list. -/
structure CFEntry where
  period : Int × Nat
  income : ℚ
  expense : ℚ
  net : ℚ
  running_balance : ℚ
deriving DecidableEq, Repr

/-- The cumulative running-balance pass (`reports.py`, lines 242-246). -/
def withRunning : ℚ → List CFEntry → List CFEntry
  | _, [] => []
  | acc, e :: es =>
    let acc2 := acc + e.net
    { e with running_balance := acc2 } :: withRunning acc2 es

/-- The cash-flow report payload. -/
structure CFReport where
  start_date : Date
  end_date : Date
  data : List CFEntry
  total_income : ℚ
  total_expense : ℚ
  net_cash_flow : ℚ
  ending_balance : ℚ
deriving DecidableEq, Repr

/-- One pre-running-balance row of the cash-flow report for month `p`
(`reports.py`, lines 218-240): `income` from income-typed sums, `expense`
— through the bare `else` branch — from all other types' sums,
`net = income - expense`, running balance still 0. -/
def cfRow (txns : List Transaction) (userId : Nat) (startD endD : Date)
    (p : Int × Nat) : CFEntry :=
  let income := sumAmounts ((reportFiltered txns userId startD endD).filter
    (fun t => monthKey t.date = p && t.type = .income))
  let expense := sumAmounts ((reportFiltered txns userId startD endD).filter
    (fun t => monthKey t.date = p && t.type ≠ .income))
  { period := p, income := income, expense := expense,
    net := income - expense, running_balance := 0 }

/-- The `data` list of the cash-flow report: one row per pre-generated
month, then the cumulative running-balance pass. -/
def cashFlowData (txns : List Transaction) (userId : Nat)
    (startD endD : Date) : List CFEntry :=
  withRunning 0 ((cashFlowPeriods startD endD).map
    (cfRow txns userId startD endD))

/-- `GET /api/reports/cash-flow` (`reports.py`, lines 167-261): reject
`months <= 0`; compute the 30-day-approximated start; pre-generate every
month from start to end (so zero-activity months still appear); fill the
rows; running balance; totals, with `ending_balance` the final running
balance (the sum of all nets). -/
def cashFlowReport (txns : List Transaction) (userId : Nat) (endD : Date)
    (months : Int) : Except RouteErr CFReport :=
  if months ≤ 0 then .error (400, "Months must be greater than 0")
  else
    let startD := cashFlowStart endD months
    let dataRows := cashFlowData txns userId startD endD
    .ok { start_date := startD
          end_date := endD
          data := dataRows
          total_income := (dataRows.map (fun e => e.income)).sum
          total_expense := (dataRows.map (fun e => e.expense)).sum
          net_cash_flow := (dataRows.map (fun e => e.net)).sum
          ending_balance := (dataRows.map (fun e => e.net)).sum }

/-- Inverse of `monthIdx`: the (year, month) pair of a linear month index. -/
def monthOfIdx (i : Int) : Int × Nat := (i / 12, (i % 12).toNat + 1)

/-- The ordered list of calendar months from `a` through `b` inclusive
(empty when `b` is before `a`): the reference description of a month
window, compared against the report's generated period list. -/
def monthRange (a b : Int × Nat) : List (Int × Nat) :=
  (List.range (monthIdx b - monthIdx a + 1).toNat).map
    (fun k : Nat => monthOfIdx (monthIdx a + (k : Int)))

/-- Modelled from the spec: "start = first day of the month that is
`months` months before `end`" (§4.2, cash_flow_report) — true
calendar-month arithmetic, stated for comparison with the source's
30-day-approximated `cashFlowStart`. -/
def specCashFlowStart (endD : Date) (months : Int) : Date :=
  let p := monthOfIdx (monthIdx (monthKey endD) - months)
  ⟨p.1, p.2, 1⟩

theorem monthOfIdx_monthIdx {y : Int} {m : Nat} (h1 : 1 ≤ m) (h2 : m ≤ 12) :
    monthOfIdx (monthIdx (y, m)) = (y, m) := by
  have hm : (12 * y + (m : Int) - 1) / 12 = y := by omega
  have hm2 : ((12 * y + (m : Int) - 1) % 12).toNat + 1 = m := by omega
  simp [monthOfIdx, monthIdx, hm, hm2]

theorem monthIdx_nextMonthStart (cur : Date) (h1 : 1 ≤ cur.month) (h2 : cur.month ≤ 12) :
    monthKey (nextMonthStart cur) =
      monthOfIdx (monthIdx (monthKey cur) + 1) ∧
    monthIdx (monthKey (nextMonthStart cur)) = monthIdx (monthKey cur) + 1 := by
  by_cases h : cur.month = 12
  · constructor
    · simp [nextMonthStart, h, monthKey, monthOfIdx, monthIdx, Prod.ext_iff]
      omega
    · simp [nextMonthStart, h, monthKey, monthIdx]
      omega
  · constructor
    · simp [nextMonthStart, h, monthKey, monthOfIdx, monthIdx, Prod.ext_iff]
      omega
    · simp [nextMonthStart, h, monthKey, monthIdx]
      omega

theorem dateLe_firstOfMonth {y : Int} {m : Nat} {endD : Date}
    (h1 : 1 ≤ m) (h2 : m ≤ 12) (h3 : 1 ≤ endD.month) (h4 : endD.month ≤ 12)
    (h5 : 1 ≤ endD.day) :
    Date.le ⟨y, m, 1⟩ endD = true ↔
      monthIdx (y, m) ≤ monthIdx (monthKey endD) := by
  simp only [Date.le, monthIdx, monthKey, Bool.or_eq_true, Bool.and_eq_true,
    decide_eq_true_eq]
  omega

theorem civilFromDays_month_bounds (z : Int) :
    1 ≤ (civilFromDays z).month ∧ (civilFromDays z).month ≤ 12 := by
  simp only [civilFromDays]
  split <;> omega

theorem cashFlowStart_fields (endD : Date) (months : Int) :
    (cashFlowStart endD months).day = 1 ∧
    1 ≤ (cashFlowStart endD months).month ∧
    (cashFlowStart endD months).month ≤ 12 := by
  refine ⟨rfl, ?_, ?_⟩
  · exact (civilFromDays_month_bounds _).1
  · exact (civilFromDays_month_bounds _).2

theorem nextMonthStart_fields (cur : Date) (h2 : cur.month ≤ 12) :
    (nextMonthStart cur).day = 1 ∧ 1 ≤ (nextMonthStart cur).month ∧
      (nextMonthStart cur).month ≤ 12 := by
  rw [nextMonthStart]
  split
  · simp
  · simp
    omega

theorem dateLe_of_day_one {a b : Date} (hd : a.day = 1) (h1 : 1 ≤ a.month)
    (h2 : a.month ≤ 12) (h3 : 1 ≤ b.month) (h4 : b.month ≤ 12) (h5 : 1 ≤ b.day) :
    Date.le a b = true ↔ monthIdx (monthKey a) ≤ monthIdx (monthKey b) := by
  simp only [Date.le, monthIdx, monthKey, Bool.or_eq_true, Bool.and_eq_true,
    decide_eq_true_eq]
  omega

theorem periodsLoop_eq_monthRange :
    ∀ fuel (cur endD : Date), cur.day = 1 → 1 ≤ cur.month → cur.month ≤ 12 →
      1 ≤ endD.month → endD.month ≤ 12 → 1 ≤ endD.day →
      (monthIdx (monthKey endD) - monthIdx (monthKey cur) + 1).toNat ≤ fuel →
      periodsLoop fuel cur endD = monthRange (monthKey cur) (monthKey endD) := by
  intro fuel
  induction fuel with
  | zero =>
    intro cur endD hd h1 h2 h3 h4 h5 hfuel
    have h0 : (monthIdx (monthKey endD) - monthIdx (monthKey cur) + 1).toNat = 0 := by omega
    simp [periodsLoop, monthRange, h0]
  | succ fuel ih =>
    intro cur endD hd h1 h2 h3 h4 h5 hfuel
    rw [periodsLoop]
    by_cases hle : Date.le cur endD = true
    · rw [if_pos hle]
      have hidx : monthIdx (monthKey cur) ≤ monthIdx (monthKey endD) :=
        (dateLe_of_day_one hd h1 h2 h3 h4 h5).mp hle
      have hnext := monthIdx_nextMonthStart cur h1 h2
      have hnf := nextMonthStart_fields cur h2
      have hcount : (monthIdx (monthKey endD) - monthIdx (monthKey cur) + 1).toNat
          = (monthIdx (monthKey endD) - (monthIdx (monthKey cur) + 1) + 1).toNat + 1 := by
        omega
      rw [ih (nextMonthStart cur) endD hnf.1 hnf.2.1 hnf.2.2 h3 h4 h5 (by omega)]
      rw [monthRange, monthRange, hcount, List.range_succ_eq_map, List.map_cons,
        List.map_map]
      congr 1
      · simp only [Nat.cast_zero, Int.add_zero]
        exact (monthOfIdx_monthIdx h1 h2).symm
      · rw [hnext.2]
        apply List.map_congr_left
        intro k _
        simp only [Function.comp]
        congr 1
        push_cast
        ring
    · rw [if_neg hle]
      have hidx : monthIdx (monthKey endD) < monthIdx (monthKey cur) := by
        have := (dateLe_of_day_one hd h1 h2 h3 h4 h5).not.mp
          (by simpa using hle)
        omega
      have h0 : (monthIdx (monthKey endD) - monthIdx (monthKey cur) + 1).toNat = 0 := by
        omega
      simp [monthRange, h0]

/-- The generated period list of the cash-flow report is exactly the
month window from the (30-day-approximated) start month through the end
month, for any well-formed end date. -/
theorem cashFlowPeriods_eq_monthRange (endD : Date) (months : Int)
    (h3 : 1 ≤ endD.month) (h4 : endD.month ≤ 12) (h5 : 1 ≤ endD.day) :
    cashFlowPeriods (cashFlowStart endD months) endD =
      monthRange (monthKey (cashFlowStart endD months)) (monthKey endD) := by
  have hf := cashFlowStart_fields endD months
  exact periodsLoop_eq_monthRange _ _ _ hf.1 hf.2.1 hf.2.2 h3 h4 h5
    (by simp [monthSpan])

/-! ## Helper lemmas -/

theorem withRunning_map_period (acc : ℚ) (l : List CFEntry) :
    (withRunning acc l).map (fun e => e.period) = l.map (fun e => e.period) := by
  induction l generalizing acc with
  | nil => rfl
  | cons e es ih => simp [withRunning, ih]

theorem withRunning_fields : ∀ (acc : ℚ) (l : List CFEntry), ∀ e ∈ withRunning acc l,
    ∃ e0 ∈ l, e.period = e0.period ∧ e.income = e0.income ∧
      e.expense = e0.expense ∧ e.net = e0.net := by
  intro acc l
  induction l generalizing acc with
  | nil => intro e he; simp [withRunning] at he
  | cons x xs ih =>
    intro e he
    simp only [withRunning] at he
    rcases List.mem_cons.mp he with h1 | h2
    · exact ⟨x, by simp, by simp [h1]⟩
    · obtain ⟨e0, he0, hf⟩ := ih _ _ h2
      exact ⟨e0, by simp [he0], hf⟩

theorem withRunning_running : ∀ (acc : ℚ) (l : List CFEntry) (i : Nat)
    (h : i < (withRunning acc l).length),
    ((withRunning acc l).get ⟨i, h⟩).running_balance =
      acc + (((withRunning acc l).take (i + 1)).map (fun e => e.net)).sum := by
  intro acc l
  induction l generalizing acc with
  | nil => intro i h; simp [withRunning] at h
  | cons x xs ih =>
    intro i h
    match i with
    | 0 => simp [withRunning]
    | i + 1 =>
      simp only [withRunning] at h ⊢
      simp only [List.get_cons_succ, List.take_succ_cons, List.map_cons, List.sum_cons]
      rw [ih (acc + x.net) i (by simpa [withRunning] using h)]
      ring

theorem buildCreateItems_amount : ∀ (l : List ItemData) (items : List InvoiceItem),
    buildCreateItems l = .ok items →
    ∀ it ∈ items, it.amount = it.quantity * it.unit_price * (1 + it.tax_rate / 100) := by
  intro l
  induction l with
  | nil =>
    intro items h it hit
    simp only [buildCreateItems] at h
    injection h with h
    subst h
    simp at hit
  | cons x xs ih =>
    intro items h it hit
    rw [buildCreateItems] at h
    split at h
    · split at h
      · exact absurd h (by simp)
      · rename_i tail htail
        injection h with h
        subst h
        rcases List.mem_cons.mp hit with h1 | h2
        · subst h1; rfl
        · exact ih tail htail it h2
    · exact absurd h (by simp)

theorem buildUpdatedItems_amount : ∀ (l : List ItemData) (rem : List Nat)
    (items : List InvoiceItem), buildUpdatedItems rem l = .ok items →
    ∀ it ∈ items, it.amount = it.quantity * it.unit_price * (1 + it.tax_rate / 100) := by
  intro l
  induction l with
  | nil =>
    intro rem items h it hit
    simp only [buildUpdatedItems] at h
    injection h with h
    subst h
    simp at hit
  | cons x xs ih =>
    intro rem items h it hit
    rw [buildUpdatedItems] at h
    split at h
    · split at h
      · split at h
        · split at h
          · exact absurd h (by simp)
          · rename_i tail htail
            injection h with h
            subst h
            rcases List.mem_cons.mp hit with h1 | h2
            · subst h1; rfl
            · exact ih _ tail htail it h2
        · split at h
          · exact absurd h (by simp)
          · rename_i tail htail
            injection h with h
            subst h
            rcases List.mem_cons.mp hit with h1 | h2
            · subst h1; rfl
            · exact ih _ tail htail it h2
      · split at h
        · exact absurd h (by simp)
        · rename_i tail htail
          injection h with h
          subst h
          rcases List.mem_cons.mp hit with h1 | h2
          · subst h1; rfl
          · exact ih _ tail htail it h2
    · exact absurd h (by simp)

theorem createInvoice_never_ok (existing : List Invoice) (cy cm userId : Nat)
    (d : CreateData) (inv : Invoice)
    (h : createInvoice existing cy cm userId d = .ok inv) : False := by
  rw [createInvoice] at h
  split at h
  · exact absurd h (by simp)
  · split at h
    · exact absurd h (by simp)
    · split at h
      · exact absurd h (by simp)
      · split at h
        · exact absurd h (by simp)
        · split at h
          · split at h
            · exact absurd h (by simp)
            · split at h
              · exact absurd h (by simp)
              · split at h
                · exact absurd h (by simp)
                · exact absurd h (by simp)
          · exact absurd h (by simp)

theorem updateServiceFields_ok_shape (inv1 : Invoice) (d : UpdateData) (inv : Invoice)
    (h : updateServiceFields inv1 d = .ok inv) :
    (∃ base, inv = calculateTotals base) ∧
    (∀ l, d.items = some l →
      ∃ rem items, buildUpdatedItems rem l = .ok items ∧ inv.items = items) := by
  rw [updateServiceFields] at h
  split at h
  · rename_i itemsData hsome
    split at h
    · exact absurd h (by simp)
    · rename_i newItems hnew
      injection h with h
      subst h
      refine ⟨⟨_, rfl⟩, ?_⟩
      intro l hl
      rw [hsome] at hl
      injection hl with hl
      subst hl
      exact ⟨_, newItems, hnew, by rw [calculateTotals_items]⟩
  · rename_i hnone
    injection h with h
    subst h
    refine ⟨⟨_, rfl⟩, ?_⟩
    intro l hl
    rw [hnone] at hl
    exact absurd hl (by simp)

theorem updateServiceStatus_ok_shape (inv1 : Invoice) (d : UpdateData) (inv : Invoice)
    (h : updateServiceStatus inv1 d = .ok inv) :
    (∃ base, inv = calculateTotals base) ∧
    (∀ l, d.items = some l →
      ∃ rem items, buildUpdatedItems rem l = .ok items ∧ inv.items = items) := by
  rw [updateServiceStatus] at h
  split at h
  · split at h
    · exact updateServiceFields_ok_shape _ _ _ h
    · exact absurd h (by simp)
  · exact updateServiceFields_ok_shape _ _ _ h

theorem updateInvoiceService_ok_shape (inv0 : Invoice) (d : UpdateData) (inv : Invoice)
    (h : updateInvoiceService inv0 d = .ok inv) :
    (∃ base, inv = calculateTotals base) ∧
    (∀ l, d.items = some l →
      ∃ rem items, buildUpdatedItems rem l = .ok items ∧ inv.items = items) := by
  rw [updateInvoiceService] at h
  split at h
  · split at h
    · exact absurd h (by simp)
    · exact updateServiceStatus_ok_shape _ _ _ h
  · exact updateServiceStatus_ok_shape _ _ _ h

theorem keyLe_trans (a b c : Int × Int) (h1 : keyLe a b = true) (h2 : keyLe b c = true) :
    keyLe a c = true := by
  simp only [keyLe, Bool.or_eq_true, Bool.and_eq_true, decide_eq_true_eq] at h1 h2 ⊢
  omega

theorem keyLe_total (a b : Int × Int) : (keyLe a b || keyLe b a) = true := by
  simp only [keyLe, Bool.or_eq_true, Bool.and_eq_true, decide_eq_true_eq]
  omega

theorem mergeSort_singleton {α : Type} (a : α) (le : α → α → Bool) :
    [a].mergeSort le = [a] := by
  have h := List.mergeSort_perm [a] le
  rwa [List.perm_singleton] at h

/-! ## Sample records used by the concrete scenarios -/

/-- A line item worth 270.00 with no item-level tax. -/
def itemA : InvoiceItem :=
  { id := 1, description := "work", quantity := 1, unit_price := 270,
    tax_rate := 0, amount := 270 }

/-- A consistent SENT invoice with subtotal 270.00, nothing paid. -/
def invoiceA : Invoice :=
  { id := 3, invoice_number := "INV-202401-0001", issue_date := ⟨2024, 1, 1⟩,
    due_date := ⟨2024, 2, 1⟩, status := .sent, notes := none, terms := none,
    tax_rate := 0, subtotal := 270, tax_amount := 0, total := 270,
    amount_paid := 0, amount_due := 270, currency := "USD", user_id := 7,
    client_id := 1, project_id := some 2, items := [itemA] }

/-- `invoiceA` after a recorded payment of 50.00. -/
def invoiceA_paid50 : Invoice :=
  { invoiceA with amount_paid := 50, amount_due := 220, status := .partially_paid }

/-- The ledger transaction the service emits for that payment. -/
def txnA_50 : Transaction :=
  { id := 0, date := ⟨2024, 1, 10⟩, amount := 50,
    description := "Payment for invoice INV-202401-0001",
    reference := some "INV-3", is_reconciled := true, type := .income,
    category := "service", user_id := 7, project_id := some 2, invoice_id := some 3 }

/-! ## The claims -/

/-- Claim C1: after every mutating invoice operation — create_invoice,
update_invoice, and record_payment (service layer and route) — the derived
money fields satisfy `subtotal = Σ item.amount`,
`tax_amount = subtotal * tax_rate / 100`, `total = subtotal + tax_amount`,
and `amount_due = total - amount_paid`. -/
theorem C1_derived_money_fields :
    (∀ existing cy cm userId d inv,
      createInvoice existing cy cm userId d = .ok inv → MoneyInvariant inv) ∧
    (∀ inv0 d inv, updateInvoiceService inv0 d = .ok inv → MoneyInvariant inv) ∧
    (∀ inv0 amount pd r, recordPaymentService inv0 amount pd = .ok r →
      MoneyInvariant r.1) ∧
    (∀ inv? cu d r, recordPaymentRoute inv? cu d = .ok r → MoneyInvariant r.1) := by
  refine ⟨?_, ?_, ?_, ?_⟩
  · intro existing cy cm userId d inv h
    exact absurd h (fun h => createInvoice_never_ok _ _ _ _ _ _ h)
  · intro inv0 d inv h
    obtain ⟨⟨base, rfl⟩, -⟩ := updateInvoiceService_ok_shape _ _ _ h
    exact calculateTotals_money_invariant base
  · intro inv0 amount pd r h
    rw [recordPaymentService] at h
    split at h
    · exact absurd h (by simp)
    · split at h
      · exact absurd h (by simp)
      · injection h with h
        subst h
        exact calculateTotals_money_invariant _
  · intro inv? cu d r h
    rw [recordPaymentRoute.eq_def] at h
    split at h
    · split at h
      · exact absurd h (by simp)
      · split at h
        · exact absurd h (by simp)
        · split at h
          · exact absurd h (by simp)
          · exact absurd h (by simp)
    · exact absurd h (by simp)

/-- Witness for C1 at a concrete payment. -/
theorem C1_witness : MoneyInvariant invoiceA_paid50 :=
  C1_derived_money_fields.2.2.1 invoiceA 50 ⟨2024, 1, 10⟩ (invoiceA_paid50, txnA_50)
    (by
      norm_num [recordPaymentService, calculateTotals, sumItemAmounts,
        invoiceA, invoiceA_paid50, txnA_50, itemA]
      decide)

/-- Claim C5: `calculate_totals` sets the status from the recomputed
`amount_due`: non-positive due → PAID; otherwise a positive `amount_paid`
→ PARTIALLY_PAID; otherwise the status is left unchanged. -/
theorem C5_status_auto_promotion (inv : Invoice) :
    ((calculateTotals inv).amount_due ≤ 0 → (calculateTotals inv).status = .paid) ∧
    (0 < (calculateTotals inv).amount_due → 0 < inv.amount_paid →
      (calculateTotals inv).status = .partially_paid) ∧
    (0 < (calculateTotals inv).amount_due → inv.amount_paid ≤ 0 →
      (calculateTotals inv).status = inv.status) := by
  simp only [calculateTotals]
  refine ⟨?_, ?_, ?_⟩
  · intro h
    simp only [if_pos h]
  · intro h1 h2
    rw [if_neg (by linarith), if_pos h2]
  · intro h1 h2
    rw [if_neg (by linarith), if_neg (by linarith)]

/-- Witness for C5: a SENT invoice with nothing paid stays SENT. -/
theorem C5_witness : (calculateTotals invoiceA).status = InvoiceStatus.sent :=
  (C5_status_auto_promotion invoiceA).2.2
    (by norm_num [calculateTotals, sumItemAmounts, invoiceA, itemA])
    (by norm_num [invoiceA])

/-- Claim C10: the send route sets status to SENT unconditionally, for
every current status, while the service-level send only promotes DRAFT to
SENT — so the route can move a PAID, VOID or UNCOLLECTIBLE invoice back
to SENT. -/
theorem C10_send_route_vs_service (inv : Invoice) :
    sendInvoiceRoute (some inv) = .ok { inv with status := .sent } ∧
    sendInvoiceService { inv with status := .draft } = { inv with status := .sent } ∧
    (inv.status ≠ .draft → sendInvoiceService inv = inv) := by
  refine ⟨rfl, rfl, ?_⟩
  intro h
  rw [sendInvoiceService, if_neg h]

/-- Witness for C10: the route re-sends a PAID invoice; the service
leaves a PAID invoice alone. -/
theorem C10_witness :
    sendInvoiceRoute (some { invoiceA with status := .paid }) =
      .ok { invoiceA with status := .sent } ∧
    sendInvoiceService { invoiceA with status := .paid } =
      { invoiceA with status := .paid } :=
  ⟨(C10_send_route_vs_service { invoiceA with status := .paid }).1,
   (C10_send_route_vs_service { invoiceA with status := .paid }).2.2 (by decide)⟩

/-- An update request body with no field present. -/
def emptyUpdate : UpdateData :=
  { client_id := none, project_id := none, issue_date := none, due_date := none,
    status := none, currency := none, tax_rate := none, notes := none,
    terms := none, items := none }

/-- Claim C9: on a PAID or PARTIALLY_PAID invoice, a PUT update whose body
contains any field other than status/notes/terms — items, client_id,
dates, currency or tax_rate — fails with the lock error and changes
nothing, while an update containing only notes (or only
status/notes/terms with a valid status value) succeeds. -/
theorem C9_locked_invoice_updates :
    (∀ inv d, (inv.status = .paid ∨ inv.status = .partially_paid) →
      (d.client_id.isSome ∨ d.project_id.isSome ∨ d.issue_date.isSome ∨
        d.due_date.isSome ∨ d.currency.isSome ∨ d.tax_rate.isSome ∨
        d.items.isSome) →
      updateInvoiceRoute (some inv) d = .error (400,
        "Cannot update paid/partially paid invoice details. Only status, notes, and terms can be updated.")) ∧
    (∀ inv (notes : String), (inv.status = .paid ∨ inv.status = .partially_paid) →
      updateInvoiceRoute (some inv) { emptyUpdate with notes := some notes } =
        .ok (calculateTotals { inv with notes := some notes })) ∧
    (∀ inv s st (notes terms : String),
      (inv.status = .paid ∨ inv.status = .partially_paid) →
      invoiceStatusOfString s = some st →
      updateInvoiceRoute (some inv)
          { emptyUpdate with
              status := some s
              notes := some notes
              terms := some terms } =
        .ok (calculateTotals
          { inv with
              status := st
              notes := some notes
              terms := some terms })) := by
  refine ⟨?_, ?_, ?_⟩
  · intro inv d hst hfield
    rw [updateInvoiceRoute, if_pos ⟨hst, hfield⟩]
  · intro inv notes hst
    rw [updateInvoiceRoute, if_neg (by simp [emptyUpdate])]
    simp [updateInvoiceService, updateServiceStatus, updateServiceFields, emptyUpdate]
  · intro inv s st notes terms hst hparse
    rw [updateInvoiceRoute, if_neg (by simp [emptyUpdate])]
    simp [updateInvoiceService, updateServiceStatus, updateServiceFields, emptyUpdate,
      hparse]

/-- Witness for C9: a PAID invoice rejects an items update and accepts a
notes-only update. -/
theorem C9_witness :
    updateInvoiceRoute (some { invoiceA with status := .paid })
        { emptyUpdate with items := some [] } = .error (400,
      "Cannot update paid/partially paid invoice details. Only status, notes, and terms can be updated.") ∧
    updateInvoiceRoute (some { invoiceA with status := .paid })
        { emptyUpdate with notes := some "thanks" } =
      .ok (calculateTotals
        { invoiceA with
            status := .paid
            notes := some "thanks" }) :=
  ⟨C9_locked_invoice_updates.1 { invoiceA with status := .paid }
      { emptyUpdate with items := some [] } (Or.inl rfl) (by simp [emptyUpdate]),
   C9_locked_invoice_updates.2.1 { invoiceA with status := .paid } "thanks" (Or.inl rfl)⟩

/-- Claim C2, evaluated at its failing input. The claim is right — the
specification mandates rejecting amount > amount_due at every
payment-recording entry point — and the code is wrong at the route: the
service rejects 400.00 against amount_due 270.00 with the
OverpaymentRejected error, but `POST /api/invoices/{id}/record-payment`
has no overpayment guard at all, and every payment that passes its
amount/lookup/VOID checks — the overpayment 400.00 and the in-bounds
50.00 alike — ends in the same generic 500 "Failed to record payment"
(the handler's float amount added to the Decimal `amount_paid` raises
`TypeError`, caught by the bare except with rollback), never in an
OverpaymentRejected rejection. -/
theorem C2_route_payment_type_error :
    invoiceA.amount_due = 270 ∧
    recordPaymentService invoiceA 400 ⟨2024, 2, 1⟩ =
      .error "Payment amount cannot be greater than the amount due" ∧
    recordPaymentRoute (some invoiceA) 7
        { amount := some 400, payment_date := some ⟨2024, 2, 1⟩ } =
      .error (500, "Failed to record payment") ∧
    recordPaymentRoute (some invoiceA) 7
        { amount := some 50, payment_date := some ⟨2024, 2, 1⟩ } =
      .error (500, "Failed to record payment") := by
  refine ⟨rfl, ?_, ?_, ?_⟩
  · rw [recordPaymentService, if_neg (by norm_num),
      if_pos (by norm_num [invoiceA])]
  · simp only [recordPaymentRoute]
    rw [if_neg (by norm_num), if_neg (by decide)]
  · simp only [recordPaymentRoute]
    rw [if_neg (by norm_num), if_neg (by decide)]

/-- `invoiceA` marked VOID, with 270.00 still formally due. -/
def invoiceV : Invoice := { invoiceA with status := .void }

/-- Counterexample to claim C6 as stated: the service-layer
`record_payment` never checks for VOID — on a VOID invoice with
`amount_due = 270.00` it accepts a payment of 50.00 and succeeds (the
recompute even moves the status from VOID to PARTIALLY_PAID); only the
route rejects VOID invoices. -/
theorem C6_counterexample :
    invoiceV.status = .void ∧
    recordPaymentService invoiceV 50 ⟨2024, 1, 10⟩ =
      .ok (invoiceA_paid50, txnA_50) := by
  refine ⟨rfl, ?_⟩
  norm_num [recordPaymentService, calculateTotals, sumItemAmounts, invoiceV,
    invoiceA, invoiceA_paid50, txnA_50, itemA]
  decide

/-- Claim C6 as amended: amount ≤ 0 is rejected at both entry points
(InvalidAmount); the InvoiceVoid rejection exists only at the route entry
point, while the service itself accepts payments on a VOID invoice; and
on success each entry point adds the amount to `amount_paid`, recomputes
the totals, and emits exactly one INCOME/service transaction linked to
the invoice and its project. -/
theorem C6_payment_entry_points :
    (∀ inv amount pd, amount ≤ 0 →
      recordPaymentService inv amount pd =
        .error "Payment amount must be greater than 0") ∧
    (∀ inv? cu amount pd, amount ≤ 0 →
      recordPaymentRoute inv? cu { amount := some amount, payment_date := some pd } =
        .error (400, "Amount must be greater than 0")) ∧
    (∀ inv cu amount pd, 0 < amount → inv.status = .void →
      recordPaymentRoute (some inv) cu
          { amount := some amount, payment_date := some pd } =
        .error (400, "Cannot record payment for a void invoice")) ∧
    (∀ inv amount pd, inv.status = .void → 0 < amount → amount ≤ inv.amount_due →
      ∃ r, recordPaymentService inv amount pd = .ok r) ∧
    (∀ inv amount pd r, recordPaymentService inv amount pd = .ok r →
      r.1 = calculateTotals { inv with amount_paid := inv.amount_paid + amount } ∧
      r.1.amount_paid = inv.amount_paid + amount ∧
      r.2.type = .income ∧ r.2.category = "service" ∧
      r.2.invoice_id = some inv.id ∧ r.2.project_id = inv.project_id) ∧
    (∀ inv cu amount pd r,
      recordPaymentRoute (some inv) cu
          { amount := some amount, payment_date := some pd } = .ok r →
      r.1 = calculateTotals { inv with amount_paid := inv.amount_paid + amount } ∧
      r.1.amount_paid = inv.amount_paid + amount ∧
      r.2.type = .income ∧ r.2.category = "service" ∧
      r.2.invoice_id = some inv.id ∧ r.2.project_id = inv.project_id) := by
  refine ⟨?_, ?_, ?_, ?_, ?_, ?_⟩
  · intro inv amount pd h0
    rw [recordPaymentService, if_pos h0]
  · intro inv? cu amount pd h0
    simp only [recordPaymentRoute]
    simp only [if_pos h0]
  · intro inv cu amount pd h0 hvoid
    simp only [recordPaymentRoute]
    simp only [if_neg (not_le.mpr h0), if_pos hvoid]
  · intro inv amount pd hvoid h0 hle
    rw [recordPaymentService, if_neg (not_le.mpr h0), if_neg (not_lt.mpr hle)]
    exact ⟨_, rfl⟩
  · intro inv amount pd r h
    rw [recordPaymentService] at h
    split at h
    · exact absurd h (by simp)
    · split at h
      · exact absurd h (by simp)
      · injection h with h
        subst h
        exact ⟨rfl, calculateTotals_amount_paid _, rfl, rfl, rfl, rfl⟩
  · intro inv cu amount pd r h
    simp only [recordPaymentRoute] at h
    by_cases h0 : amount ≤ 0
    · rw [if_pos h0] at h
      exact absurd h (by simp)
    · rw [if_neg h0] at h
      by_cases hv : inv.status = .void
      · rw [if_pos hv] at h
        exact absurd h (by simp)
      · rw [if_neg hv] at h
        exact absurd h (by simp)

/-- Witness for C6: the route rejects a payment on a VOID invoice. -/
theorem C6_witness :
    recordPaymentRoute (some invoiceV) 7
        { amount := some 50, payment_date := some ⟨2024, 1, 10⟩ } =
      .error (400, "Cannot record payment for a void invoice") :=
  C6_payment_entry_points.2.2.1 invoiceV 7 50 ⟨2024, 1, 10⟩ (by norm_num) rfl

theorem generateInvoiceNumber_of_parse (invs : List Invoice) (inv : Invoice)
    (cy cm y m s : Nat) (hl : latestInvoice invs = some inv)
    (hp : parseInvoiceNumber inv.invoice_number = some (y, m, s)) :
    generateInvoiceNumber invs cy cm =
      mkInvoiceNumber cy cm (if y = cy ∧ m = cm then s + 1 else 1) := by
  by_cases hne : inv.invoice_number = ""
  · rw [hne] at hp
    have hempty : parseInvoiceNumber "" = none := by decide
    rw [hempty] at hp
    exact absurd hp (by simp)
  · simp [generateInvoiceNumber, hl, hne, hp]

theorem generateInvoiceNumber_of_parse_none (invs : List Invoice) (inv : Invoice)
    (cy cm : Nat) (hl : latestInvoice invs = some inv)
    (hp : parseInvoiceNumber inv.invoice_number = none) :
    generateInvoiceNumber invs cy cm = mkInvoiceNumber cy cm 1 := by
  by_cases hne : inv.invoice_number = ""
  · simp [generateInvoiceNumber, hl, hne]
  · simp [generateInvoiceNumber, hl, hne, hp]

/-- Claim C4: `_generate_invoice_number` returns
`INV-{year}{month:02d}-{seq:04d}` where the sequence comes from the user's
most recent invoice (highest id): its parsed sequence plus one when its
number parses with the current year/month, and 1 when the year/month
differ, when the pattern does not match, or when no invoice exists. Hence
same-month consecutive invoices get sequences n and n+1 and a new month
restarts at 1. -/
theorem C4_invoice_number_generation (cy cm : Nat) :
    (generateInvoiceNumber [] cy cm = mkInvoiceNumber cy cm 1) ∧
    (∀ invs inv, latestInvoice invs = some inv →
      parseInvoiceNumber inv.invoice_number = none →
      generateInvoiceNumber invs cy cm = mkInvoiceNumber cy cm 1) ∧
    (∀ invs inv y m s, latestInvoice invs = some inv →
      parseInvoiceNumber inv.invoice_number = some (y, m, s) →
      generateInvoiceNumber invs cy cm =
        mkInvoiceNumber cy cm (if y = cy ∧ m = cm then s + 1 else 1)) ∧
    (∀ invs inv n, 1000 ≤ cy → cy ≤ 9999 → cm ≤ 99 →
      latestInvoice invs = some inv →
      inv.invoice_number = mkInvoiceNumber cy cm n →
      generateInvoiceNumber invs cy cm = mkInvoiceNumber cy cm (n + 1)) ∧
    (∀ invs inv y m n, 1000 ≤ y → y ≤ 9999 → m ≤ 99 → y ≠ cy ∨ m ≠ cm →
      latestInvoice invs = some inv →
      inv.invoice_number = mkInvoiceNumber y m n →
      generateInvoiceNumber invs cy cm = mkInvoiceNumber cy cm 1) := by
  refine ⟨rfl, ?_, ?_, ?_, ?_⟩
  · intro invs inv hl hp
    exact generateInvoiceNumber_of_parse_none invs inv cy cm hl hp
  · intro invs inv y m s hl hp
    exact generateInvoiceNumber_of_parse invs inv cy cm y m s hl hp
  · intro invs inv n h1 h2 h3 hl hnum
    have hp : parseInvoiceNumber inv.invoice_number = some (cy, cm, n) := by
      rw [hnum]
      exact parse_mkInvoiceNumber cy cm n h1 h2 h3
    rw [generateInvoiceNumber_of_parse invs inv cy cm cy cm n hl hp,
      if_pos ⟨rfl, rfl⟩]
  · intro invs inv y m n h1 h2 h3 hne hl hnum
    have hp : parseInvoiceNumber inv.invoice_number = some (y, m, n) := by
      rw [hnum]
      exact parse_mkInvoiceNumber y m n h1 h2 h3
    rw [generateInvoiceNumber_of_parse invs inv cy cm y m n hl hp,
      if_neg (by tauto)]

/-- Witness for C4: with the latest invoice numbered `INV-202408-0005`,
the next number in 2024-08 is `INV-202408-0006`, and in 2024-09 the
sequence restarts at `INV-202409-0001`. -/
theorem C4_witness :
    generateInvoiceNumber [{ invoiceA with invoice_number := "INV-202408-0005" }]
        2024 8 = "INV-202408-0006" ∧
    generateInvoiceNumber [{ invoiceA with invoice_number := "INV-202408-0005" }]
        2024 9 = "INV-202409-0001" := by
  constructor
  · have h := (C4_invoice_number_generation 2024 8).2.2.2.1
      [{ invoiceA with invoice_number := "INV-202408-0005" }]
      { invoiceA with invoice_number := "INV-202408-0005" } 5
      (by decide) (by decide) (by decide) (by decide) (by decide)
    rw [h]
    decide
  · have h := (C4_invoice_number_generation 2024 9).2.2.2.2
      [{ invoiceA with invoice_number := "INV-202408-0005" }]
      { invoiceA with invoice_number := "INV-202408-0005" } 2024 8 5
      (by decide) (by decide) (by decide) (by decide) (by decide) (by decide)
    rw [h]
    decide

/-- The claim C8 scenario's request items:
(quantity 2, unit price 100.00, tax 10%) and (quantity 1, unit price
50.00, no tax). -/
def scenarioItems : List ItemData :=
  [{ id := none, description := some "design", quantity := some 2,
     unit_price := some 100, tax_rate := some 10 },
   { id := none, description := some "hosting", quantity := some 1,
     unit_price := some 50, tax_rate := none }]

/-- The claim C8 scenario's create request, invoice-level tax 0. -/
def scenarioCreate : CreateData :=
  { client_id := some 1, project_id := none, issue_date := some ⟨2024, 7, 1⟩,
    due_date := some ⟨2024, 7, 31⟩, currency := none, tax_rate := some 0,
    notes := none, terms := none, items := some scenarioItems }

/-- Claim C8, evaluated at its failing input (the spec's §8 scenario).
The claim is right — item amounts are computed as
`quantity * unit_price * (1 + tax_rate / 100)`, and the scenario's items
do come out as 220.00 and 50.00 when the create handler builds them
(`invoice_service.py`, line 125) — but the code then breaks: the
`calculate_totals` call on line 130 runs before the INSERT flush, while
`amount_paid` is still `None`, so `total - amount_paid` raises
`TypeError` and every `create_invoice` call, the 270.00/DRAFT scenario
included, fails with "Failed to create invoice: ..." instead of
returning the invoice the claim describes. -/
theorem C8_create_invoice_type_error :
    buildCreateItems scenarioItems = .ok
      [{ id := 0, description := "design", quantity := 2, unit_price := 100,
         tax_rate := 10, amount := 220 },
       { id := 0, description := "hosting", quantity := 1, unit_price := 50,
         tax_rate := 0, amount := 50 }] ∧
    (220 : ℚ) = 2 * 100 * (1 + 10 / 100) ∧
    (270 : ℚ) = 220 + 50 ∧
    createInvoice [] 2024 7 7 scenarioCreate =
      .error "Failed to create invoice: unsupported operand type(s) for -: Decimal and NoneType" := by
  refine ⟨?_, by norm_num, by norm_num, ?_⟩
  · norm_num [buildCreateItems, buildItem, scenarioItems]
  · norm_num [createInvoice, scenarioCreate, scenarioItems, buildCreateItems,
      buildItem, Date.lt]

/-- Counterexample to claim C3 as stated: for end = 2024-03-31 and
months = 3 the code's window starts at 2024-01-01 — `end` minus 30*3
days with the day set to 1 — not at the first day of the month three
calendar months before `end` (2023-12-01). The report's period list is
[2024-01, 2024-02, 2024-03]; the claim's start month would make it begin
one month earlier, at 2023-12 (and contain four entries). -/
theorem C3_counterexample :
    cashFlowStart ⟨2024, 3, 31⟩ 3 = ⟨2024, 1, 1⟩ ∧
    specCashFlowStart ⟨2024, 3, 31⟩ 3 = ⟨2023, 12, 1⟩ ∧
    (cashFlowReport [] 7 ⟨2024, 3, 31⟩ 3).toOption.map
        (fun r => r.data.map (fun e => e.period)) =
      some [(2024, 1), (2024, 2), (2024, 3)] ∧
    monthRange (monthKey (specCashFlowStart ⟨2024, 3, 31⟩ 3))
        (monthKey ⟨2024, 3, 31⟩) =
      [(2023, 12), (2024, 1), (2024, 2), (2024, 3)] := by
  refine ⟨by decide, by decide, by decide, by decide⟩

/-- Claim C3 as amended: for months > 0 the cash-flow report succeeds;
its period list is exactly the ordered list of calendar months from the
month of `(end - 30*months days).replace(day=1)` — the source's 30-day
approximation of "`months` months before `end`" — through `end`'s month;
months with no transactions appear with income 0 and expense 0; each
row's running_balance is the cumulative sum of net up to and including
that row; and in the 3-month scenario at end 2024-03-31 with income only
in the first month, the three rows carry the first month's balance
forward unchanged. -/
theorem C3_cash_flow_report :
    (∀ txns userId endD months, 0 < months →
      cashFlowReport txns userId endD months = .ok
        { start_date := cashFlowStart endD months
          end_date := endD
          data := cashFlowData txns userId (cashFlowStart endD months) endD
          total_income := ((cashFlowData txns userId (cashFlowStart endD months)
            endD).map (fun e => e.income)).sum
          total_expense := ((cashFlowData txns userId (cashFlowStart endD months)
            endD).map (fun e => e.expense)).sum
          net_cash_flow := ((cashFlowData txns userId (cashFlowStart endD months)
            endD).map (fun e => e.net)).sum
          ending_balance := ((cashFlowData txns userId (cashFlowStart endD months)
            endD).map (fun e => e.net)).sum }) ∧
    (∀ txns userId endD months, 1 ≤ endD.month → endD.month ≤ 12 → 1 ≤ endD.day →
      (cashFlowData txns userId (cashFlowStart endD months) endD).map
          (fun e => e.period) =
        monthRange (monthKey (cashFlowStart endD months)) (monthKey endD)) ∧
    (∀ txns userId startD endD, ∀ e ∈ cashFlowData txns userId startD endD,
      (∀ t ∈ reportFiltered txns userId startD endD, monthKey t.date ≠ e.period) →
      e.income = 0 ∧ e.expense = 0) ∧
    (∀ txns userId startD endD i
      (h : i < (cashFlowData txns userId startD endD).length),
      ((cashFlowData txns userId startD endD).get ⟨i, h⟩).running_balance =
        (((cashFlowData txns userId startD endD).take (i + 1)).map
          (fun e => e.net)).sum) ∧
    cashFlowReport [txnA_50] 7 ⟨2024, 3, 31⟩ 3 = .ok
      { start_date := ⟨2024, 1, 1⟩
        end_date := ⟨2024, 3, 31⟩
        data := [
          { period := (2024, 1), income := 50, expense := 0, net := 50,
            running_balance := 50 },
          { period := (2024, 2), income := 0, expense := 0, net := 0,
            running_balance := 50 },
          { period := (2024, 3), income := 0, expense := 0, net := 0,
            running_balance := 50 }]
        total_income := 50
        total_expense := 0
        net_cash_flow := 50
        ending_balance := 50 } := by
  refine ⟨?_, ?_, ?_, ?_, ?_⟩
  · intro txns userId endD months hm
    rw [cashFlowReport, if_neg (not_le.mpr hm)]
  · intro txns userId endD months h3 h4 h5
    rw [cashFlowData, withRunning_map_period, List.map_map]
    have hcomp : ((fun e : CFEntry => e.period) ∘
        cfRow txns userId (cashFlowStart endD months) endD) = id := by
      funext p
      rfl
    rw [hcomp, List.map_id]
    exact cashFlowPeriods_eq_monthRange endD months h3 h4 h5
  · intro txns userId startD endD e he hno
    rw [cashFlowData] at he
    obtain ⟨e0, he0, hper, hinc, hexp, -⟩ := withRunning_fields 0 _ e he
    obtain ⟨p, hp, rfl⟩ := List.mem_map.mp he0
    have hkey : ∀ t ∈ reportFiltered txns userId startD endD,
        ¬monthKey t.date = p := by
      intro t ht
      have := hno t ht
      rw [hper] at this
      exact this
    constructor
    · rw [hinc]
      show sumAmounts ((reportFiltered txns userId startD endD).filter
        (fun t => monthKey t.date = p && t.type = .income)) = 0
      rw [List.filter_eq_nil_iff.mpr (by
        intro t ht
        simp only [Bool.and_eq_true, decide_eq_true_eq, not_and]
        intro hk
        exact absurd hk (hkey t ht))]
      rfl
    · rw [hexp]
      show sumAmounts ((reportFiltered txns userId startD endD).filter
        (fun t => monthKey t.date = p && t.type ≠ .income)) = 0
      rw [List.filter_eq_nil_iff.mpr (by
        intro t ht
        simp only [Bool.and_eq_true, decide_eq_true_eq, not_and]
        intro hk
        exact absurd hk (hkey t ht))]
      rfl
  · intro txns userId startD endD i h
    simp only [cashFlowData] at h ⊢
    rw [withRunning_running 0 _ i h]
    rw [zero_add]
  · norm_num [cashFlowReport, cashFlowData, cfRow, reportFiltered, cashFlowStart,
      cashFlowPeriods, periodsLoop, monthSpan, monthIdx, monthKey, nextMonthStart,
      subDays, daysFromCivil, civilFromDays, Date.le, sumAmounts, withRunning,
      txnA_50]

/-- Witness for C3 at concrete inputs: the empty-ledger report for
end 2024-03-31, months 3 succeeds and its period list is the month range
of the computed window. -/
theorem C3_witness :
    cashFlowReport [] 7 ⟨2024, 3, 31⟩ 3 = .ok
      { start_date := cashFlowStart ⟨2024, 3, 31⟩ 3
        end_date := ⟨2024, 3, 31⟩
        data := cashFlowData [] 7 (cashFlowStart ⟨2024, 3, 31⟩ 3) ⟨2024, 3, 31⟩
        total_income := ((cashFlowData [] 7 (cashFlowStart ⟨2024, 3, 31⟩ 3)
          ⟨2024, 3, 31⟩).map (fun e => e.income)).sum
        total_expense := ((cashFlowData [] 7 (cashFlowStart ⟨2024, 3, 31⟩ 3)
          ⟨2024, 3, 31⟩).map (fun e => e.expense)).sum
        net_cash_flow := ((cashFlowData [] 7 (cashFlowStart ⟨2024, 3, 31⟩ 3)
          ⟨2024, 3, 31⟩).map (fun e => e.net)).sum
        ending_balance := ((cashFlowData [] 7 (cashFlowStart ⟨2024, 3, 31⟩ 3)
          ⟨2024, 3, 31⟩).map (fun e => e.net)).sum } ∧
    (cashFlowData [] 7 (cashFlowStart ⟨2024, 3, 31⟩ 3) ⟨2024, 3, 31⟩).map
        (fun e => e.period) =
      monthRange (monthKey (cashFlowStart ⟨2024, 3, 31⟩ 3)) (monthKey ⟨2024, 3, 31⟩) :=
  ⟨C3_cash_flow_report.1 [] 7 ⟨2024, 3, 31⟩ 3 (by norm_num),
   C3_cash_flow_report.2.1 [] 7 ⟨2024, 3, 31⟩ 3 (by norm_num) (by norm_num)
     (by norm_num)⟩

/-- A transfer-typed ledger transaction of 50.00. -/
def txnTransfer : Transaction :=
  { id := 9, date := ⟨2024, 1, 10⟩, amount := 50, description := "move funds",
    reference := none, is_reconciled := false, type := .transfer,
    category := "other_income", user_id := 7, project_id := none,
    invoice_id := none }

/-- Counterexample to claim C7 as stated: a transfer-typed transaction is
counted as expense by the income/expense report's bare `else` branch — a
ledger holding one transfer of 50.00 yields a period row with
expense = 50 although the sum of expense-typed amounts is 0. -/
theorem C7_counterexample :
    (incomeExpenseReport [txnTransfer] 7 ⟨2024, 1, 1⟩ ⟨2024, 12, 31⟩ .month).data =
      [{ period := (2024, 1), income := 0, expense := 50, net := -50 }] ∧
    sumAmounts ([txnTransfer].filter (fun t => t.type = TransactionType.expense)) = 0 ∧
    txnTransfer.type ≠ TransactionType.expense := by
  refine ⟨?_, by norm_num +decide [sumAmounts, txnTransfer], by decide⟩
  norm_num +decide [incomeExpenseReport, ieKeys, ieRow, reportFiltered, periodKey,
    Date.le, sumAmounts, txnTransfer, mergeSort_singleton]

/-- Claim C7 as amended: the income/expense report has exactly one row
per period key occurring among the user's transactions in range; each
row's income is the sum of the income-typed amounts of that period, its
expense is the sum of the amounts of ALL non-income-typed transactions
of that period (expense and transfer alike), and net = income − expense;
rows are sorted ascending by period key; and the totals are the sums of
the rows with net_income = total_income − total_expense. -/
theorem C7_income_expense_report (txns : List Transaction) (userId : Nat)
    (startD endD : Date) (g : GroupBy) :
    (∀ k, (∃ e ∈ (incomeExpenseReport txns userId startD endD g).data,
        e.period = k) ↔
      ∃ t ∈ reportFiltered txns userId startD endD, periodKey g t.date = k) ∧
    (∀ e ∈ (incomeExpenseReport txns userId startD endD g).data,
      e.income = sumAmounts ((reportFiltered txns userId startD endD).filter
        (fun t => periodKey g t.date = e.period && t.type = .income)) ∧
      e.expense = sumAmounts ((reportFiltered txns userId startD endD).filter
        (fun t => periodKey g t.date = e.period && t.type ≠ .income)) ∧
      e.net = e.income - e.expense) ∧
    List.Pairwise (fun a b => keyLe a.period b.period = true)
      (incomeExpenseReport txns userId startD endD g).data ∧
    ((incomeExpenseReport txns userId startD endD g).total_income =
      (((incomeExpenseReport txns userId startD endD g).data.map
        (fun e => e.income)).sum) ∧
    (incomeExpenseReport txns userId startD endD g).total_expense =
      (((incomeExpenseReport txns userId startD endD g).data.map
        (fun e => e.expense)).sum) ∧
    (incomeExpenseReport txns userId startD endD g).net_income =
      (incomeExpenseReport txns userId startD endD g).total_income -
        (incomeExpenseReport txns userId startD endD g).total_expense) := by
  have hdata : (incomeExpenseReport txns userId startD endD g).data =
      (ieKeys txns userId startD endD g).map (ieRow txns userId startD endD g) :=
    rfl
  refine ⟨?_, ?_, ?_, rfl, rfl, rfl⟩
  · intro k
    rw [hdata]
    constructor
    · rintro ⟨e, he, hk⟩
      obtain ⟨k0, hk0, rfl⟩ := List.mem_map.mp he
      have hk0k : k0 = k := hk
      subst hk0k
      rw [ieKeys, List.mem_mergeSort, List.mem_dedup] at hk0
      obtain ⟨t, ht, hkt⟩ := List.mem_map.mp hk0
      exact ⟨t, ht, hkt⟩
    · rintro ⟨t, ht, hk⟩
      refine ⟨ieRow txns userId startD endD g k, List.mem_map_of_mem _ ?_, rfl⟩
      rw [ieKeys, List.mem_mergeSort, List.mem_dedup]
      exact List.mem_map.mpr ⟨t, ht, hk⟩
  · intro e he
    rw [hdata] at he
    obtain ⟨k, hk, rfl⟩ := List.mem_map.mp he
    exact ⟨rfl, rfl, rfl⟩
  · rw [hdata, List.pairwise_map]
    exact List.sorted_mergeSort keyLe_trans keyLe_total
      (((reportFiltered txns userId startD endD).map
        (fun t => periodKey g t.date)).dedup)

/-- Witness for C7: the single row of the transfer-ledger report
satisfies the row equations. -/
theorem C7_witness :
    ({ period := (2024, 1), income := 0, expense := 50, net := -50 } :
        IEEntry).income =
      sumAmounts ((reportFiltered [txnTransfer] 7 ⟨2024, 1, 1⟩
        ⟨2024, 12, 31⟩).filter (fun t =>
          periodKey .month t.date = ((2024 : Int), (1 : Int)) &&
            t.type = .income)) ∧
    ({ period := (2024, 1), income := 0, expense := 50, net := -50 } :
        IEEntry).expense =
      sumAmounts ((reportFiltered [txnTransfer] 7 ⟨2024, 1, 1⟩
        ⟨2024, 12, 31⟩).filter (fun t =>
          periodKey .month t.date = ((2024 : Int), (1 : Int)) &&
            t.type ≠ .income)) := by
  have h := (C7_income_expense_report [txnTransfer] 7 ⟨2024, 1, 1⟩
      ⟨2024, 12, 31⟩ .month).2.1
    { period := (2024, 1), income := 0, expense := 50, net := -50 }
    (by
      norm_num +decide [incomeExpenseReport, ieKeys, ieRow, reportFiltered, periodKey,
        Date.le, sumAmounts, txnTransfer, mergeSort_singleton])
  exact ⟨h.1, h.2.1⟩
